import Mathlib

/-!
Shallow embedding of `agilerl/algorithms/core/wrappers.py` (class
`OptimizerWrapper`) together with the fragments of the Python runtime
semantics the class depends on (object identity, tuple truthiness,
iteration and subscription failures).

Modelling conventions:

* Python objects that the wrapper compares by identity (`id(x)`) are
  modelled by `PyVal`, each value carrying an explicit object id.
* A trainable module (`torch.nn.Module`) is `PyVal.module oid params`,
  where `params` abstracts the result of `net.parameters()`.
* An optimizer class is an opaque tag (`Nat`); calling the class is
  `mkOptInstance`, producing an `OptInstance` that records exactly the
  arguments it was constructed from plus an abstract mutable state
  (`state`, the serialized state exposed by `state_dict`) and counters
  abstracting the externally visible effects of `step` / `zero_grad`.
* Python exceptions are modelled by `Except PyErr`; an `assert` that
  fails raises `PyErr.assertionError` with its message.
* The stack-frame introspection of `_infer_parent_container` is not
  representable in a pure embedding, so the owning container is passed
  explicitly as the ordered list of its fields (`vars(container).items()`),
  exactly the data that function hands to `_infer_network_attr_names`.
* `self.networks = [networks]` at line 39 allocates a fresh list object;
  the fresh id is passed explicitly as `freshOid`.
-/

/-- Python exceptions relevant to the wrapper. -/
inductive PyErr where
  | assertionError (msg : String)
  | typeError (msg : String)
  | attributeError (msg : String)
  | indexError
  deriving DecidableEq

/-- Non-list Python objects compared by object identity in the wrapper:
a trainable module (carrying its id and the abstract result of a call to
parameters()) or any other object. -/
inductive PyLeaf where
  | module (oid : Nat) (params : List Nat)
  | obj (oid : Nat)
  deriving DecidableEq

/-- The object id of a non-list object. -/
def leafId : PyLeaf → Nat
  | .module oid _ => oid
  | .obj oid => oid

/-- Whether a non-list object is a torch.nn.Module instance. -/
def leafIsModule : PyLeaf → Bool
  | .module _ _ => true
  | .obj _ => false

/-- Python values compared by object identity in the wrapper: a non-list
object or a list object carrying its own id and its elements. -/
inductive PyVal where
  | leaf (x : PyLeaf)
  | pyList (oid : Nat) (elems : List PyLeaf)
  deriving DecidableEq

/-- The object id of a value, i.e. Python id(x). -/
def pyId : PyVal → Nat
  | .leaf x => leafId x
  | .pyList oid _ => oid

/-- Whether the value is a torch.nn.Module instance. -/
def isModule : PyVal → Bool
  | .leaf x => leafIsModule x
  | .pyList _ _ => false

/-- Iterating or taking the length of a value: list objects succeed with
their elements; modules and other objects raise TypeError. -/
def pyListElems : PyVal → Except PyErr (List PyLeaf)
  | .pyList _ es => .ok es
  | .leaf (.module _ _) => .error (.typeError "Module object is not iterable")
  | .leaf (.obj _) => .error (.typeError "object is not iterable")

/-- Calling parameters() on an element of the network list: only modules
expose parameters. -/
def parameters : PyLeaf → Except PyErr (List Nat)
  | .module _ ps => .ok ps
  | .obj _ => .error (.attributeError "object has no attribute parameters")

/-- Keyword configuration passed to an optimizer class (an opaque finite
mapping, values abstracted). -/
abbrev Kwargs := List (String × Nat)

/-- The optimizer_cls argument: either a single optimizer class (a type)
or a list of classes. -/
inductive ClsArg where
  | clsType (c : Nat)
  | clsList (cs : List Nat)
  deriving DecidableEq

/-- The optimizer_kwargs argument: either a single keyword dictionary or
a list of dictionaries. -/
inductive KwargsArg where
  | kwDict (k : Kwargs)
  | kwList (ks : List Kwargs)
  deriving DecidableEq

/-- The positional argument handed to an optimizer class: either a plain
parameter iterator or a list of parameter-group dictionaries, each group
holding its params and its merged keyword configuration. -/
inductive ParamsArg where
  | plain (params : List Nat)
  | groups (gs : List (List Nat × Kwargs))
  deriving DecidableEq

/-- An opaque torch optimizer instance: records the class and arguments
it was constructed from, its abstract serialized state (returned by
state_dict, replaced by load_state_dict), and counters abstracting the
external side effects of step and zero_grad. -/
structure OptInstance where
  cls : Nat
  args : ParamsArg
  kwargs : Kwargs
  state : Nat
  stepCount : Nat
  zeroGradCount : Nat
  deriving DecidableEq

/-- Calling an optimizer class on its arguments: a freshly constructed
instance with initial state 0 and no steps taken. -/
def mkOptInstance (c : Nat) (a : ParamsArg) (k : Kwargs) : OptInstance :=
  { cls := c, args := a, kwargs := k, state := 0, stepCount := 0, zeroGradCount := 0 }

/-- Serialized state of one optimizer instance (opaque mapping). -/
def OptInstance.state_dict (o : OptInstance) : Nat := o.state

/-- Loading a serialized state into one optimizer instance replaces its
state. -/
def OptInstance.load_state_dict (o : OptInstance) (s : Nat) : OptInstance :=
  { o with state := s }

/-- One external optimization step on a single instance. -/
def OptInstance.step (o : OptInstance) : OptInstance :=
  { o with stepCount := o.stepCount + 1 }

/-- Clearing gradients through a single instance. -/
def OptInstance.zero_grad (o : OptInstance) : OptInstance :=
  { o with zeroGradCount := o.zeroGradCount + 1 }

/-- The optimizer field of the wrapper: a single instance or a Python
list of instances (the Union type at wrappers.py line 24). -/
inductive OptimizerField where
  | single (o : OptInstance)
  | multi (os : List OptInstance)
  deriving DecidableEq

/-- Whether the stored optimizer field is a list object. -/
def isListField : OptimizerField → Bool
  | .single _ => false
  | .multi _ => true

/-- Number of optimizer instances stored in the field (a single instance
counts as one). -/
def optCount : OptimizerField → Nat
  | .single _ => 1
  | .multi os => os.length

/-- The serialized-state payload accepted by load_state_dict: the source
annotates it as a single state mapping or a list of such mappings. -/
inductive StateDictVal where
  | dict (s : Nat)
  | list (ss : List Nat)
  deriving DecidableEq

/-- The wrapper object with the attributes set by the constructor at
wrappers.py lines 34-94. -/
structure OptimizerWrapper where
  optimizer_cls : ClsArg
  optimizer_kwargs : KwargsArg
  multiagent : Bool
  networks : PyVal
  network_names : List String
  optimizer : OptimizerField
  deriving DecidableEq

/-- The arguments of OptimizerWrapper.__init__ (wrappers.py lines 26-33). -/
structure InitArgs where
  optimizer_cls : ClsArg
  networks : PyVal
  optimizer_kwargs : KwargsArg
  network_names : Option (List String)
  multiagent : Bool
  deriving DecidableEq

/-- Elements of a Python tuple literal, as they occur in the assert
statement at wrappers.py lines 41-45. -/
inductive PyTupleElem where
  | boolVal (b : Bool)
  | strVal (s : String)
  deriving DecidableEq

/-- Python truthiness of a tuple object: every non-empty tuple is truthy,
regardless of the truth values of its elements. -/
def tupleTruthy (t : List PyTupleElem) : Bool := !t.isEmpty

/-- The condition the assert at wrappers.py lines 41-45 spells out:
isinstance(networks, list) and all elements are modules. -/
def isModuleListCond (v : PyVal) : Bool :=
  match v with
  | .pyList _ es => es.all leafIsModule
  | _ => false

/-- The expression actually handed to the assert statement at wrappers.py
lines 41-45: the parenthesised pair (condition, message) forms a 2-tuple,
and the assert tests the truthiness of that tuple. -/
def networksAssertExpr (v : PyVal) : List PyTupleElem :=
  [.boolVal (isModuleListCond v),
   .strVal "Expected a single network or a list of networks."]

/-- Lines 38-46 of wrappers.py: a single module is wrapped into a fresh
list object (id freshOid); any other value passes through the tuple
assert and is stored as-is. -/
def normalizeNetworks (networks : PyVal) (freshOid : Nat) : Except PyErr PyVal :=
  match networks with
  | .leaf (.module oid ps) => .ok (.pyList freshOid [.module oid ps])
  | v =>
    if tupleTruthy (networksAssertExpr v) then .ok v
    else .error (.assertionError "Expected a single network or a list of networks.")

/-- The closure _match_condition at wrappers.py lines 129-132: without the
multiagent flag, any identity match against an element of self.networks;
with it, an identity match against the self.networks list object itself. -/
def matchCondition (multiagent : Bool) (selfNetworks : PyVal) (attrValue : PyVal) :
    Except PyErr Bool :=
  if !multiagent then
    match pyListElems selfNetworks with
    | .error e => .error e
    | .ok nets => .ok (nets.any (fun net => pyId attrValue == leafId net))
  else .ok (pyId attrValue == pyId selfNetworks)

/-- OptimizerWrapper._infer_network_attr_names (wrappers.py lines 123-137):
the ordered field names of the container whose value satisfies the match
condition. The container is the ordered list vars(container).items(). -/
def infer_network_attr_names (multiagent : Bool) (selfNetworks : PyVal) :
    List (String × PyVal) → Except PyErr (List String)
  | [] => .ok []
  | (n, v) :: rest =>
    match matchCondition multiagent selfNetworks v with
    | .error e => .error e
    | .ok b =>
      match infer_network_attr_names multiagent selfNetworks rest with
      | .error e => .error e
      | .ok tail => .ok (if b then n :: tail else tail)

/-- Lines 50-54 of wrappers.py: explicitly passed names are taken as-is,
otherwise they are inferred from the owning container. -/
def resolveNames (a : InitArgs) (selfNetworks : PyVal)
    (container : List (String × PyVal)) : Except PyErr (List String) :=
  match a.network_names with
  | some ns => .ok ns
  | none => infer_network_attr_names a.multiagent selfNetworks container

/-- Subscription of a list by a non-negative index (IndexError when out
of range). -/
def listGet {α : Type} (l : List α) (i : Nat) : Except PyErr α :=
  match l.get? i with
  | some x => .ok x
  | none => .error .indexError

/-- Line 66 of wrappers.py: optimizer_cls[i] if it is a list, else the
single class. -/
def selectCls (cls : ClsArg) (i : Nat) : Except PyErr Nat :=
  match cls with
  | .clsList cs => listGet cs i
  | .clsType c => .ok c

/-- Lines 67 and 81 of wrappers.py: optimizer_kwargs[i] if it is a list,
else the single dictionary. -/
def selectKwargs (kw : KwargsArg) (i : Nat) : Except PyErr Kwargs :=
  match kw with
  | .kwList ks => listGet ks i
  | .kwDict k => .ok k

/-- Lines 64-68 of wrappers.py: the multiagent loop constructing one
optimizer instance per network, indexing class and kwargs when they are
lists. The second argument is the running loop index. -/
def buildMulti (cls : ClsArg) (kw : KwargsArg) :
    List PyLeaf → Nat → Except PyErr (List OptInstance)
  | [], _ => .ok []
  | net :: rest, i =>
    match selectCls cls i with
    | .error e => .error e
    | .ok c =>
      match selectKwargs kw i with
      | .error e => .error e
      | .ok k =>
        match parameters net with
        | .error e => .error e
        | .ok ps =>
          match buildMulti cls kw rest (i + 1) with
          | .error e => .error e
          | .ok tail => .ok (mkOptInstance c (.plain ps) k :: tail)

/-- Lines 79-82 of wrappers.py: the parameter-group list for the pooled
topology, one group per network carrying the kwargs of that network. -/
def buildGroups (kw : KwargsArg) :
    List PyLeaf → Nat → Except PyErr (List (List Nat × Kwargs))
  | [], _ => .ok []
  | net :: rest, i =>
    match selectKwargs kw i with
    | .error e => .error e
    | .ok k =>
      match parameters net with
      | .error e => .error e
      | .ok ps =>
        match buildGroups kw rest (i + 1) with
        | .error e => .error e
        | .ok tail => .ok ((ps, k) :: tail)

/-- Lines 61-94 of wrappers.py: the three-way topology selection over the
already-normalized network list and the resolved names. -/
def buildOptimizerField (a : InitArgs) (names : List String) (elems : List PyLeaf) :
    Except PyErr OptimizerField :=
  if a.multiagent then
    match buildMulti a.optimizer_cls a.optimizer_kwargs elems 0 with
    | .error e => .error e
    | .ok os => .ok (.multi os)
  else if decide (elems.length > 1) && decide (names.length > 1) then
    if elems.length = names.length then
      match a.optimizer_cls with
      | .clsType c =>
        match buildGroups a.optimizer_kwargs elems 0 with
        | .error e => .error e
        | .ok gs => .ok (.single (mkOptInstance c (.groups gs) []))
      | .clsList _ =>
        .error (.assertionError "Expected a single optimizer class for multiple networks.")
    else .error (.assertionError "Number of networks and network attribute names do not match.")
  else
    match a.optimizer_cls with
    | .clsType c =>
      match a.optimizer_kwargs with
      | .kwDict k =>
        match elems with
        | [] => .error .indexError
        | net0 :: _ =>
          match parameters net0 with
          | .error e => .error e
          | .ok ps => .ok (.single (mkOptInstance c (.plain ps) k))
      | .kwList _ =>
        .error (.assertionError "Expected a single dictionary of optimizer keyword arguments.")
    | .clsList _ =>
      .error (.assertionError "Expected a single optimizer class for a single network.")

/-- OptimizerWrapper.__init__ (wrappers.py lines 26-94). The owning
container stands in for the stack-frame introspection of
_infer_parent_container; freshOid is the id of the fresh list allocated
at line 39 when a bare module is passed. -/
def OptimizerWrapper.init (a : InitArgs) (container : List (String × PyVal))
    (freshOid : Nat) : Except PyErr OptimizerWrapper :=
  match normalizeNetworks a.networks freshOid with
  | .error e => .error e
  | .ok selfNetworks =>
    match resolveNames a selfNetworks container with
    | .error e => .error e
    | .ok names =>
      if names.isEmpty then
        .error (.assertionError "No networks found in the parent container.")
      else
        match pyListElems selfNetworks with
        | .error e => .error e
        | .ok elems =>
          match buildOptimizerField a names elems with
          | .error e => .error e
          | .ok f =>
            .ok { optimizer_cls := a.optimizer_cls,
                  optimizer_kwargs := a.optimizer_kwargs,
                  multiagent := a.multiagent,
                  networks := selfNetworks,
                  network_names := names,
                  optimizer := f }

/-- OptimizerWrapper.__getitem__ (wrappers.py lines 96-100): subscription
of the stored list, with the TypeError of subscribing a single instance
caught and re-raised with the wrapper message; an IndexError on a list
propagates unchanged. -/
def OptimizerWrapper.getitem (w : OptimizerWrapper) (i : Nat) :
    Except PyErr OptInstance :=
  match w.optimizer with
  | .multi os =>
    match os.get? i with
    | some o => .ok o
    | none => .error .indexError
  | .single _ =>
    .error (.typeError "Cannot access item of a single Optimizer object.")

/-- Loading every serialized state of a list pairwise into a list of
instances (the loop at wrappers.py lines 152-153). -/
def loadAll (os : List OptInstance) (ss : List Nat) : List OptInstance :=
  List.zipWith OptInstance.load_state_dict os ss

/-- OptimizerWrapper.load_state_dict (wrappers.py lines 140-158): in the
multiagent branch the payload must be a list of the same length as the
stored optimizer list (asserted before any instance is touched); in the
single branch it must be a single mapping. -/
def OptimizerWrapper.load_state_dict (w : OptimizerWrapper) (sd : StateDictVal) :
    Except PyErr OptimizerWrapper :=
  if w.multiagent then
    match sd with
    | .list ss =>
      match w.optimizer with
      | .multi os =>
        if ss.length = os.length then
          .ok { w with optimizer := .multi (loadAll os ss) }
        else
          .error (.assertionError "Expected a list of optimizer state dictionaries for multi-agent optimizers.")
      | .single _ => .error (.typeError "object of type Optimizer has no len()")
    | .dict _ =>
      .error (.assertionError "Expected a list of optimizer state dictionaries for multi-agent optimizers.")
  else
    match sd with
    | .dict s =>
      match w.optimizer with
      | .single o => .ok { w with optimizer := .single (o.load_state_dict s) }
      | .multi _ => .error (.attributeError "list object has no attribute load_state_dict")
    | .list _ =>
      .error (.assertionError "Expected a single optimizer state dictionary for single-agent optimizers.")

/-- OptimizerWrapper.state_dict (wrappers.py lines 160-171): a list of
per-instance states in the multiagent branch, the single state
otherwise. -/
def OptimizerWrapper.state_dict (w : OptimizerWrapper) :
    Except PyErr StateDictVal :=
  if w.multiagent then
    match w.optimizer with
    | .multi os => .ok (.list (os.map OptInstance.state_dict))
    | .single _ => .error (.typeError "argument of type Optimizer is not iterable")
  else
    match w.optimizer with
    | .single o => .ok (.dict o.state_dict)
    | .multi _ => .error (.attributeError "list object has no attribute state_dict")

/-- OptimizerWrapper.zero_grad (wrappers.py lines 173-182). -/
def OptimizerWrapper.zero_grad (w : OptimizerWrapper) :
    Except PyErr OptimizerWrapper :=
  if w.multiagent then
    match w.optimizer with
    | .multi os => .ok { w with optimizer := .multi (os.map OptInstance.zero_grad) }
    | .single _ => .error (.typeError "argument of type Optimizer is not iterable")
  else
    match w.optimizer with
    | .single o => .ok { w with optimizer := .single o.zero_grad }
    | .multi _ => .error (.attributeError "list object has no attribute zero_grad")

/-- OptimizerWrapper.step (wrappers.py lines 184-193). -/
def OptimizerWrapper.step (w : OptimizerWrapper) :
    Except PyErr OptimizerWrapper :=
  if w.multiagent then
    match w.optimizer with
    | .multi os => .ok { w with optimizer := .multi (os.map OptInstance.step) }
    | .single _ => .error (.typeError "argument of type Optimizer is not iterable")
  else
    match w.optimizer with
    | .single o => .ok { w with optimizer := .single o.step }
    | .multi _ => .error (.attributeError "list object has no attribute step")

instance {ε α : Type} [DecidableEq ε] [DecidableEq α] : DecidableEq (Except ε α) :=
  fun a b =>
    match a, b with
    | .ok x, .ok y => decidable_of_iff (x = y) (by simp)
    | .error x, .error y => decidable_of_iff (x = y) (by simp)
    | .ok _, .error _ => .isFalse (fun hc => Except.noConfusion hc)
    | .error _, .ok _ => .isFalse (fun hc => Except.noConfusion hc)

/-- Total description of the value lines 38-46 of wrappers.py store in
self.networks: a bare module is wrapped into a fresh one-element list,
everything else is stored unchanged. -/
def normValue (networks : PyVal) (freshOid : Nat) : PyVal :=
  match networks with
  | .leaf (.module oid ps) => .pyList freshOid [.module oid ps]
  | v => v

/-- The optimizer class the multiagent loop uses at index i (line 66 of
wrappers.py): the i-th entry when a list was passed, else the shared
class. Total companion of selectCls, meaningful under the in-range
hypotheses of the theorems that use it. -/
def clsAt (cls : ClsArg) (i : Nat) : Nat :=
  match cls with
  | .clsType c => c
  | .clsList cs => cs.getD i 0

/-- The keyword configuration the multiagent loop uses at index i (line
67 of wrappers.py). Total companion of selectKwargs. -/
def kwAt (kw : KwargsArg) (i : Nat) : Kwargs :=
  match kw with
  | .kwDict k => k
  | .kwList ks => ks.getD i []

/-- parameters() of a network-list element, defaulting to [] on
non-modules. Total companion of parameters. -/
def paramsOf : PyLeaf → List Nat
  | .module _ ps => ps
  | .obj _ => []

/-- The optimizer-instance list the multiagent loop produces when no
exception occurs, starting from loop index i. -/
def multiSpec (cls : ClsArg) (kw : KwargsArg) : List PyLeaf → Nat → List OptInstance
  | [], _ => []
  | v :: rest, i =>
    mkOptInstance (clsAt cls i) (.plain (paramsOf v)) (kwAt kw i)
      :: multiSpec cls kw rest (i + 1)

/-! Helper lemmas. -/

lemma normalizeNetworks_eq (v : PyVal) (f : Nat) :
    normalizeNetworks v f = .ok (normValue v f) := by
  cases v with
  | leaf x => cases x <;> rfl
  | pyList oid es => rfl

lemma pyListElems_err {v : PyVal} {e : PyErr} (h : pyListElems v = .error e) :
    ∃ s, e = PyErr.typeError s := by
  cases v with
  | pyList oid es => simp [pyListElems] at h
  | leaf x =>
    cases x with
    | module oid ps =>
      simp only [pyListElems, Except.error.injEq] at h
      exact ⟨_, h.symm⟩
    | obj oid =>
      simp only [pyListElems, Except.error.injEq] at h
      exact ⟨_, h.symm⟩

lemma matchCondition_err {m : Bool} {sn v : PyVal} {e : PyErr}
    (h : matchCondition m sn v = .error e) : ∃ s, e = PyErr.typeError s := by
  unfold matchCondition at h
  cases m with
  | true => simp at h
  | false =>
    simp only [Bool.not_false, if_true] at h
    cases hsn : pyListElems sn with
    | error e2 =>
      rw [hsn] at h
      obtain ⟨s, hs⟩ := pyListElems_err hsn
      simp only [Except.error.injEq] at h
      exact ⟨s, by rw [← h, hs]⟩
    | ok nets => rw [hsn] at h; simp at h

lemma infer_err {m : Bool} {sn : PyVal} {c : List (String × PyVal)} {e : PyErr}
    (h : infer_network_attr_names m sn c = .error e) :
    ∃ s, e = PyErr.typeError s := by
  induction c with
  | nil => simp [infer_network_attr_names] at h
  | cons p rest ih =>
    obtain ⟨n, v⟩ := p
    unfold infer_network_attr_names at h
    cases hmc : matchCondition m sn v with
    | error e2 =>
      rw [hmc] at h
      simp only [Except.error.injEq] at h
      obtain ⟨s, hs⟩ := matchCondition_err hmc
      exact ⟨s, by rw [← h, hs]⟩
    | ok b =>
      rw [hmc] at h
      cases hrec : infer_network_attr_names m sn rest with
      | error e2 =>
        rw [hrec] at h
        simp only [Except.error.injEq] at h
        subst h
        exact ih hrec
      | ok tail => rw [hrec] at h; simp at h

lemma resolveNames_err {a : InitArgs} {sn : PyVal}
    {c : List (String × PyVal)} {e : PyErr}
    (h : resolveNames a sn c = .error e) : ∃ s, e = PyErr.typeError s := by
  unfold resolveNames at h
  cases hn : a.network_names with
  | some ns => rw [hn] at h; simp at h
  | none => rw [hn] at h; exact infer_err h

lemma listGet_err {α : Type} {l : List α} {i : Nat} {e : PyErr}
    (h : listGet l i = .error e) : e = PyErr.indexError := by
  unfold listGet at h
  cases hg : l.get? i with
  | some x => rw [hg] at h; simp at h
  | none => rw [hg] at h; simp only [Except.error.injEq] at h; exact h.symm

lemma get?_getD {α : Type} (l : List α) (i : Nat) (d : α) (h : i < l.length) :
    l.get? i = some (l.getD i d) := by
  induction l generalizing i with
  | nil => simp at h
  | cons a t ih =>
    cases i with
    | zero => rfl
    | succ j =>
      simp only [List.length_cons] at h
      have hj : j < t.length := by omega
      simpa [List.getD] using ih j hj

lemma selectCls_ok {cls : ClsArg} {i : Nat}
    (h : ∀ cs, cls = ClsArg.clsList cs → i < cs.length) :
    selectCls cls i = .ok (clsAt cls i) := by
  cases cls with
  | clsType c => rfl
  | clsList cs =>
    have hi := h cs rfl
    simp only [selectCls, listGet, clsAt, get?_getD cs i 0 hi]

lemma selectCls_err {cls : ClsArg} {i : Nat} {e : PyErr}
    (h : selectCls cls i = .error e) : e = PyErr.indexError := by
  cases cls with
  | clsType c => simp [selectCls] at h
  | clsList cs => exact listGet_err h

lemma selectKwargs_ok {kw : KwargsArg} {i : Nat}
    (h : ∀ ks, kw = KwargsArg.kwList ks → i < ks.length) :
    selectKwargs kw i = .ok (kwAt kw i) := by
  cases kw with
  | kwDict k => rfl
  | kwList ks =>
    have hi := h ks rfl
    simp only [selectKwargs, listGet, kwAt, get?_getD ks i [] hi]

lemma selectKwargs_err {kw : KwargsArg} {i : Nat} {e : PyErr}
    (h : selectKwargs kw i = .error e) : e = PyErr.indexError := by
  cases kw with
  | kwDict k => simp [selectKwargs] at h
  | kwList ks => exact listGet_err h

lemma parameters_err {v : PyLeaf} {e : PyErr}
    (h : parameters v = .error e) : ∃ s, e = PyErr.attributeError s := by
  cases v with
  | module oid ps => simp [parameters] at h
  | obj oid =>
    simp only [parameters, Except.error.injEq] at h
    exact ⟨_, h.symm⟩

lemma parameters_module (oid : Nat) (ps : List Nat) :
    parameters (.module oid ps) = .ok ps := rfl

lemma buildMulti_ok (cls : ClsArg) (kw : KwargsArg) :
    ∀ (elems : List PyLeaf) (i : Nat),
      (∀ v ∈ elems, leafIsModule v = true) →
      (∀ cs, cls = ClsArg.clsList cs → i + elems.length ≤ cs.length) →
      (∀ ks, kw = KwargsArg.kwList ks → i + elems.length ≤ ks.length) →
      buildMulti cls kw elems i = .ok (multiSpec cls kw elems i) := by
  intro elems
  induction elems with
  | nil => intro i _ _ _; rfl
  | cons v rest ih =>
    intro i hmod hcls hkw
    have hc : selectCls cls i = .ok (clsAt cls i) :=
      selectCls_ok (fun cs hcs => by
        have := hcls cs hcs
        simp only [List.length_cons] at this
        omega)
    have hk : selectKwargs kw i = .ok (kwAt kw i) :=
      selectKwargs_ok (fun ks hks => by
        have := hkw ks hks
        simp only [List.length_cons] at this
        omega)
    have hv : leafIsModule v = true := hmod v (by simp)
    have hp : parameters v = .ok (paramsOf v) := by
      cases v with
      | module oid ps => rfl
      | obj oid => simp [leafIsModule] at hv
    have hrest : buildMulti cls kw rest (i + 1) = .ok (multiSpec cls kw rest (i + 1)) := by
      refine ih (i + 1) (fun x hx => hmod x (by simp [hx])) ?_ ?_
      · intro cs hcs
        have := hcls cs hcs
        simp only [List.length_cons] at this
        omega
      · intro ks hks
        have := hkw ks hks
        simp only [List.length_cons] at this
        omega
    unfold buildMulti
    rw [hc, hk, hp, hrest]
    rfl

lemma buildMulti_err (cls : ClsArg) (kw : KwargsArg) :
    ∀ (elems : List PyLeaf) (i : Nat) (e : PyErr),
      buildMulti cls kw elems i = .error e →
      e = PyErr.indexError ∨ ∃ s, e = PyErr.attributeError s := by
  intro elems
  induction elems with
  | nil => intro i e h; simp [buildMulti] at h
  | cons v rest ih =>
    intro i e h
    unfold buildMulti at h
    cases hc : selectCls cls i with
    | error e2 =>
      rw [hc] at h
      simp only [Except.error.injEq] at h
      subst h
      exact Or.inl (selectCls_err hc)
    | ok c =>
      rw [hc] at h
      cases hk : selectKwargs kw i with
      | error e2 =>
        rw [hk] at h
        simp only [Except.error.injEq] at h
        subst h
        exact Or.inl (selectKwargs_err hk)
      | ok k =>
        rw [hk] at h
        cases hp : parameters v with
        | error e2 =>
          rw [hp] at h
          simp only [Except.error.injEq] at h
          subst h
          exact Or.inr (parameters_err hp)
        | ok ps =>
          rw [hp] at h
          cases hrest : buildMulti cls kw rest (i + 1) with
          | error e2 =>
            rw [hrest] at h
            simp only [Except.error.injEq] at h
            exact h ▸ ih (i + 1) e2 hrest
          | ok tail => rw [hrest] at h; simp at h

lemma buildGroups_err (kw : KwargsArg) :
    ∀ (elems : List PyLeaf) (i : Nat) (e : PyErr),
      buildGroups kw elems i = .error e →
      e = PyErr.indexError ∨ ∃ s, e = PyErr.attributeError s := by
  intro elems
  induction elems with
  | nil => intro i e h; simp [buildGroups] at h
  | cons v rest ih =>
    intro i e h
    unfold buildGroups at h
    cases hk : selectKwargs kw i with
    | error e2 =>
      rw [hk] at h
      simp only [Except.error.injEq] at h
      subst h
      exact Or.inl (selectKwargs_err hk)
    | ok k =>
      rw [hk] at h
      cases hp : parameters v with
      | error e2 =>
        rw [hp] at h
        simp only [Except.error.injEq] at h
        subst h
        exact Or.inr (parameters_err hp)
      | ok ps =>
        rw [hp] at h
        cases hrest : buildGroups kw rest (i + 1) with
        | error e2 =>
          rw [hrest] at h
          simp only [Except.error.injEq] at h
          exact h ▸ ih (i + 1) e2 hrest
        | ok tail => rw [hrest] at h; simp at h

lemma multiSpec_length (cls : ClsArg) (kw : KwargsArg) :
    ∀ (elems : List PyLeaf) (i : Nat),
      (multiSpec cls kw elems i).length = elems.length := by
  intro elems
  induction elems with
  | nil => intro i; rfl
  | cons v rest ih => intro i; simp [multiSpec, ih]

lemma multiSpec_get? (cls : ClsArg) (kw : KwargsArg) :
    ∀ (elems : List PyLeaf) (i j : Nat) (v : PyLeaf),
      elems.get? j = some v →
      (multiSpec cls kw elems i).get? j
        = some (mkOptInstance (clsAt cls (i + j)) (.plain (paramsOf v)) (kwAt kw (i + j))) := by
  intro elems
  induction elems with
  | nil => intro i j v h; simp at h
  | cons a rest ih =>
    intro i j v h
    cases j with
    | zero =>
      simp only [List.get?] at h
      injection h with h
      subst h
      rfl
    | succ jj =>
      have hrest : rest.get? jj = some v := h
      rw [show i + (jj + 1) = (i + 1) + jj by omega]
      exact ih (i + 1) jj v hrest

lemma buildOptimizerField_shape {a : InitArgs} {names : List String}
    {elems : List PyLeaf} {f : OptimizerField}
    (h : buildOptimizerField a names elems = .ok f) :
    isListField f = a.multiagent := by
  unfold buildOptimizerField at h
  cases hm : a.multiagent with
  | true =>
    rw [hm] at h
    simp only [if_true] at h
    cases hb : buildMulti a.optimizer_cls a.optimizer_kwargs elems 0 with
    | error e => rw [hb] at h; simp at h
    | ok os =>
      rw [hb] at h
      simp only [Except.ok.injEq] at h
      rw [← h]
      rfl
  | false =>
    rw [hm] at h
    simp only [Bool.false_eq_true, if_false] at h
    cases hcond : (decide (elems.length > 1) && decide (names.length > 1)) with
    | true =>
      rw [hcond] at h
      simp only [if_true] at h
      by_cases hlen : elems.length = names.length
      · rw [if_pos hlen] at h
        cases hcls : a.optimizer_cls with
        | clsType c =>
          rw [hcls] at h
          cases hg : buildGroups a.optimizer_kwargs elems 0 with
          | error e => rw [hg] at h; simp at h
          | ok gs =>
            rw [hg] at h
            simp only [Except.ok.injEq] at h
            rw [← h]
            rfl
        | clsList cs => rw [hcls] at h; simp at h
      · rw [if_neg hlen] at h; simp at h
    | false =>
      rw [hcond] at h
      simp only [Bool.false_eq_true, if_false] at h
      cases hcls : a.optimizer_cls with
      | clsList cs => rw [hcls] at h; simp at h
      | clsType c =>
        rw [hcls] at h
        cases hkw : a.optimizer_kwargs with
        | kwList ks => rw [hkw] at h; simp at h
        | kwDict k =>
          rw [hkw] at h
          simp only [] at h
          cases elems with
          | nil => simp at h
          | cons v rest =>
            simp only [] at h
            cases hp : parameters v with
            | error e => rw [hp] at h; simp at h
            | ok ps =>
              rw [hp] at h
              simp only [Except.ok.injEq] at h
              rw [← h]
              rfl

lemma buildOptimizerField_err {a : InitArgs} {names : List String}
    {elems : List PyLeaf} {e : PyErr}
    (h : buildOptimizerField a names elems = .error e) :
    e ≠ PyErr.assertionError "Expected a single network or a list of networks." := by
  unfold buildOptimizerField at h
  cases hm : a.multiagent with
  | true =>
    rw [hm] at h
    simp only [if_true] at h
    cases hb : buildMulti a.optimizer_cls a.optimizer_kwargs elems 0 with
    | ok os => rw [hb] at h; simp at h
    | error e2 =>
      rw [hb] at h
      simp only [Except.error.injEq] at h
      rcases buildMulti_err _ _ _ _ _ hb with h1 | ⟨s, h1⟩ <;>
        (rw [← h, h1]; intro hc; cases hc)
  | false =>
    rw [hm] at h
    simp only [Bool.false_eq_true, if_false] at h
    cases hcond : (decide (elems.length > 1) && decide (names.length > 1)) with
    | true =>
      rw [hcond] at h
      simp only [if_true] at h
      by_cases hlen : elems.length = names.length
      · rw [if_pos hlen] at h
        cases hcls : a.optimizer_cls with
        | clsList cs =>
          rw [hcls] at h
          simp only [Except.error.injEq] at h
          rw [← h]
          intro hc
          simp at hc
        | clsType c =>
          rw [hcls] at h
          cases hg : buildGroups a.optimizer_kwargs elems 0 with
          | ok gs => rw [hg] at h; simp at h
          | error e2 =>
            rw [hg] at h
            simp only [Except.error.injEq] at h
            rcases buildGroups_err _ _ _ _ hg with h1 | ⟨s, h1⟩ <;>
              (rw [← h, h1]; intro hc; cases hc)
      · rw [if_neg hlen] at h
        simp only [Except.error.injEq] at h
        rw [← h]
        intro hc
        simp at hc
    | false =>
      rw [hcond] at h
      simp only [Bool.false_eq_true, if_false] at h
      cases hcls : a.optimizer_cls with
      | clsList cs =>
        rw [hcls] at h
        simp only [Except.error.injEq] at h
        rw [← h]
        intro hc
        simp at hc
      | clsType c =>
        rw [hcls] at h
        cases hkw : a.optimizer_kwargs with
        | kwList ks =>
          rw [hkw] at h
          simp only [Except.error.injEq] at h
          rw [← h]
          intro hc
          simp at hc
        | kwDict k =>
          rw [hkw] at h
          simp only [] at h
          cases elems with
          | nil =>
            simp only [Except.error.injEq] at h
            rw [← h]
            intro hc
            cases hc
          | cons v rest =>
            simp only [] at h
            cases hp : parameters v with
            | ok ps => rw [hp] at h; simp at h
            | error e2 =>
              rw [hp] at h
              simp only [Except.error.injEq] at h
              rcases parameters_err hp with ⟨s, h1⟩
              rw [← h, h1]
              intro hc
              cases hc

lemma init_ok_elim {a : InitArgs} {container : List (String × PyVal)}
    {freshOid : Nat} {w : OptimizerWrapper}
    (h : OptimizerWrapper.init a container freshOid = .ok w) :
    ∃ names elems f,
      resolveNames a (normValue a.networks freshOid) container = .ok names ∧
      names.isEmpty = false ∧
      pyListElems (normValue a.networks freshOid) = .ok elems ∧
      buildOptimizerField a names elems = .ok f ∧
      w = { optimizer_cls := a.optimizer_cls,
            optimizer_kwargs := a.optimizer_kwargs,
            multiagent := a.multiagent,
            networks := normValue a.networks freshOid,
            network_names := names,
            optimizer := f } := by
  unfold OptimizerWrapper.init at h
  rw [normalizeNetworks_eq] at h
  simp only [] at h
  cases hr : resolveNames a (normValue a.networks freshOid) container with
  | error e => rw [hr] at h; simp at h
  | ok names =>
    rw [hr] at h
    simp only [] at h
    cases hni : names.isEmpty with
    | true => rw [hni] at h; simp at h
    | false =>
      rw [if_neg (show ¬(names.isEmpty = true) by simp [hni])] at h
      cases hpe : pyListElems (normValue a.networks freshOid) with
      | error e => rw [hpe] at h; simp at h
      | ok elems =>
        rw [hpe] at h
        simp only [] at h
        cases hbf : buildOptimizerField a names elems with
        | error e => rw [hbf] at h; simp at h
        | ok f =>
          rw [hbf] at h
          simp only [Except.ok.injEq] at h
          exact ⟨names, elems, f, rfl, hni, rfl, hbf, h.symm⟩

lemma loadAll_map_state :
    ∀ (os : List OptInstance) (ss : List Nat), ss.length = os.length →
      (loadAll os ss).map OptInstance.state_dict = ss := by
  intro os
  induction os with
  | nil =>
    intro ss h
    cases ss with
    | nil => rfl
    | cons s st => simp at h
  | cons o rest ih =>
    intro ss h
    cases ss with
    | nil => simp at h
    | cons s st =>
      simp only [List.length_cons] at h
      simp only [loadAll, List.zipWith, List.map, OptInstance.load_state_dict,
        OptInstance.state_dict, List.cons.injEq]
      exact ⟨trivial, ih st (by omega)⟩

lemma step_preserves {w w2 : OptimizerWrapper} (h : w.step = .ok w2) :
    w2.multiagent = w.multiagent
    ∧ isListField w2.optimizer = isListField w.optimizer
    ∧ optCount w2.optimizer = optCount w.optimizer := by
  unfold OptimizerWrapper.step at h
  cases hm : w.multiagent with
  | true =>
    rw [hm] at h
    simp only [if_true] at h
    cases ho : w.optimizer with
    | single o => rw [ho] at h; simp at h
    | multi os =>
      rw [ho] at h
      simp only [Except.ok.injEq] at h
      rw [← h]
      exact ⟨rfl, rfl, by simp [optCount]⟩
  | false =>
    rw [hm] at h
    rw [if_neg (show ¬(false = true) by simp)] at h
    cases ho : w.optimizer with
    | multi os => rw [ho] at h; simp at h
    | single o =>
      rw [ho] at h
      simp only [Except.ok.injEq] at h
      rw [← h]
      exact ⟨rfl, rfl, rfl⟩

lemma zero_grad_preserves {w w2 : OptimizerWrapper} (h : w.zero_grad = .ok w2) :
    w2.multiagent = w.multiagent
    ∧ isListField w2.optimizer = isListField w.optimizer
    ∧ optCount w2.optimizer = optCount w.optimizer := by
  unfold OptimizerWrapper.zero_grad at h
  cases hm : w.multiagent with
  | true =>
    rw [hm] at h
    simp only [if_true] at h
    cases ho : w.optimizer with
    | single o => rw [ho] at h; simp at h
    | multi os =>
      rw [ho] at h
      simp only [Except.ok.injEq] at h
      rw [← h]
      exact ⟨rfl, rfl, by simp [optCount]⟩
  | false =>
    rw [hm] at h
    rw [if_neg (show ¬(false = true) by simp)] at h
    cases ho : w.optimizer with
    | multi os => rw [ho] at h; simp at h
    | single o =>
      rw [ho] at h
      simp only [Except.ok.injEq] at h
      rw [← h]
      exact ⟨rfl, rfl, rfl⟩

lemma load_preserves {w : OptimizerWrapper} {sd : StateDictVal} {w2 : OptimizerWrapper}
    (h : w.load_state_dict sd = .ok w2) :
    w2.multiagent = w.multiagent
    ∧ isListField w2.optimizer = isListField w.optimizer
    ∧ optCount w2.optimizer = optCount w.optimizer := by
  unfold OptimizerWrapper.load_state_dict at h
  cases hm : w.multiagent with
  | true =>
    rw [hm] at h
    simp only [if_true] at h
    cases sd with
    | dict s => simp at h
    | list ss =>
      simp only [] at h
      cases ho : w.optimizer with
      | single o => rw [ho] at h; simp at h
      | multi os =>
        rw [ho] at h
        simp only [] at h
        by_cases hlen : ss.length = os.length
        · rw [if_pos hlen] at h
          simp only [Except.ok.injEq] at h
          rw [← h]
          refine ⟨rfl, rfl, ?_⟩
          simp [optCount, loadAll, hlen]
        · rw [if_neg hlen] at h; simp at h
  | false =>
    rw [hm] at h
    rw [if_neg (show ¬(false = true) by simp)] at h
    cases sd with
    | list ss => simp at h
    | dict s =>
      simp only [] at h
      cases ho : w.optimizer with
      | multi os => rw [ho] at h; simp at h
      | single o =>
        rw [ho] at h
        simp only [Except.ok.injEq] at h
        rw [← h]
        exact ⟨rfl, rfl, rfl⟩

/-- C3: over an owning container (the ordered field list), the resolver
_infer_network_attr_names returns exactly the field names whose stored
value has the same object id as one of the target networks when the
multiagent flag is false, and exactly the field names whose stored value
has the object id of the entire self.networks list object when the flag
is true. Matching is pure identity comparison, so a field holding a
value-equal but distinct module instance (equal params, different id) is
never returned. -/
theorem c3_resolver_identity (loid : Nat) (elems : List PyLeaf)
    (container : List (String × PyVal)) :
    infer_network_attr_names false (.pyList loid elems) container
      = .ok ((container.filter
          (fun p => elems.any (fun net => pyId p.2 == leafId net))).map Prod.fst)
    ∧ infer_network_attr_names true (.pyList loid elems) container
      = .ok ((container.filter (fun p => pyId p.2 == loid)).map Prod.fst) := by
  constructor
  · induction container with
    | nil => rfl
    | cons p rest ih =>
      obtain ⟨n, v⟩ := p
      unfold infer_network_attr_names
      have hmc : matchCondition false (.pyList loid elems) v
          = .ok (elems.any (fun net => pyId v == leafId net)) := rfl
      rw [hmc, ih]
      simp only [List.filter_cons]
      cases hb : elems.any (fun net => pyId v == leafId net) with
      | true => simp [hb]
      | false => simp [hb]
  · induction container with
    | nil => rfl
    | cons p rest ih =>
      obtain ⟨n, v⟩ := p
      unfold infer_network_attr_names
      have hmc : matchCondition true (.pyList loid elems) v
          = .ok (pyId v == loid) := rfl
      rw [hmc, ih]
      simp only [List.filter_cons]
      cases hb : (pyId v == loid) with
      | true => simp [hb]
      | false => simp [hb]

/-- C8: wrapper indexing (__getitem__) returns the i-th stored
OptimizerInstance when the stored optimizer is a list (PER_NETWORK
topology) and the index is in range, and raises the TypeError naming the
non-indexable single-instance case when the stored optimizer is a single
instance (SINGLE or POOLED topology). -/
theorem c8_getitem_semantics (w : OptimizerWrapper) :
    (∀ (os : List OptInstance) (i : Nat) (o : OptInstance),
        w.optimizer = .multi os → os.get? i = some o → w.getitem i = .ok o)
    ∧ ∀ (o : OptInstance) (i : Nat),
        w.optimizer = .single o →
        w.getitem i
          = .error (.typeError "Cannot access item of a single Optimizer object.") := by
  constructor
  · intro os i o ho hg
    unfold OptimizerWrapper.getitem
    rw [ho]
    simp only [hg]
  · intro o i ho
    unfold OptimizerWrapper.getitem
    rw [ho]

/-- Witness for C8 at a concrete wrapper: index 1 of a two-instance list
is returned, and indexing a single-instance wrapper raises the TypeError. -/
theorem c8_witness :
    (OptimizerWrapper.mk (.clsType 1) (.kwDict []) true (.pyList 9 []) ["x"]
        (.multi [mkOptInstance 1 (.plain [3]) [], mkOptInstance 2 (.plain [4]) []])).getitem 1
      = .ok (mkOptInstance 2 (.plain [4]) [])
    ∧ (OptimizerWrapper.mk (.clsType 1) (.kwDict []) false (.pyList 9 []) ["x"]
        (.single (mkOptInstance 1 (.plain [3]) []))).getitem 0
      = .error (.typeError "Cannot access item of a single Optimizer object.") := by
  constructor
  · exact (c8_getitem_semantics _).1
      [mkOptInstance 1 (.plain [3]) [], mkOptInstance 2 (.plain [4]) []] 1
      (mkOptInstance 2 (.plain [4]) []) rfl rfl
  · exact (c8_getitem_semantics _).2 (mkOptInstance 1 (.plain [3]) []) 0 rfl

/-- C5: on a PER_NETWORK (multiagent) wrapper, load_state_dict with a
payload that is not a list of exactly as many serialized states as there
are stored optimizer instances fails with the multi-agent assertion
error; the failure occurs at the length assert, before any stored
instance has its load_state_dict invoked, so no wrapper state with
partially loaded instances is ever produced. -/
theorem c5_load_length_check (w : OptimizerWrapper) (os : List OptInstance)
    (sd : StateDictVal)
    (hm : w.multiagent = true) (ho : w.optimizer = .multi os)
    (hbad : ∀ ss, sd = .list ss → ss.length ≠ os.length) :
    w.load_state_dict sd
      = .error (.assertionError
          "Expected a list of optimizer state dictionaries for multi-agent optimizers.") := by
  unfold OptimizerWrapper.load_state_dict
  rw [hm]
  simp only [if_true]
  cases sd with
  | dict s => rfl
  | list ss =>
    simp only [] 
    rw [ho]
    simp only []
    rw [if_neg (hbad ss rfl)]

/-- Witness for C5: a two-instance multiagent wrapper rejects a single
mapping and a one-element list, leaving only the error result. -/
theorem c5_witness :
    (OptimizerWrapper.mk (.clsType 1) (.kwDict []) true (.pyList 9 []) ["x"]
        (.multi [mkOptInstance 1 (.plain [3]) [], mkOptInstance 2 (.plain [4]) []])).load_state_dict
        (.dict 3)
      = .error (.assertionError
          "Expected a list of optimizer state dictionaries for multi-agent optimizers.")
    ∧ (OptimizerWrapper.mk (.clsType 1) (.kwDict []) true (.pyList 9 []) ["x"]
        (.multi [mkOptInstance 1 (.plain [3]) [], mkOptInstance 2 (.plain [4]) []])).load_state_dict
        (.list [5])
      = .error (.assertionError
          "Expected a list of optimizer state dictionaries for multi-agent optimizers.") := by
  constructor
  · exact c5_load_length_check _ _ _ rfl rfl (fun ss h => by cases h)
  · exact c5_load_length_check _ _ _ rfl rfl
      (fun ss h => by cases h; decide)

/-- C6: round-trip law. For wrappers w1 and w2 of identical topology
(same multiagent flag, optimizer-field shape matching the flag as
established by construction, and equally many optimizer instances),
loading the serialized state of w1 into w2 and serializing again yields
exactly the serialized state of w1. The model builds in the assumed
round-trip of the opaque per-instance load_state_dict / state_dict
pair. -/
theorem c6_roundtrip (w1 w2 : OptimizerWrapper)
    (h1 : w1.multiagent = isListField w1.optimizer)
    (h2 : w2.multiagent = isListField w2.optimizer)
    (hm : w1.multiagent = w2.multiagent)
    (hc : optCount w1.optimizer = optCount w2.optimizer) :
    (w1.state_dict).bind
        (fun sd => (w2.load_state_dict sd).bind OptimizerWrapper.state_dict)
      = w1.state_dict := by
  cases hma : w1.multiagent with
  | false =>
    have hb2 : w2.multiagent = false := by rw [← hm, hma]
    rw [hma] at h1
    rw [hb2] at h2
    cases ho1 : w1.optimizer with
    | multi os1 => rw [ho1] at h1; simp [isListField] at h1
    | single o1 =>
      cases ho2 : w2.optimizer with
      | multi os2 => rw [ho2] at h2; simp [isListField] at h2
      | single o2 =>
        simp [OptimizerWrapper.state_dict, OptimizerWrapper.load_state_dict,
          hma, hb2, ho1, ho2, Except.bind, OptInstance.state_dict,
          OptInstance.load_state_dict]
  | true =>
    have hb2 : w2.multiagent = true := by rw [← hm, hma]
    rw [hma] at h1
    rw [hb2] at h2
    cases ho1 : w1.optimizer with
    | single o1 => rw [ho1] at h1; simp [isListField] at h1
    | multi os1 =>
      cases ho2 : w2.optimizer with
      | single o2 => rw [ho2] at h2; simp [isListField] at h2
      | multi os2 =>
        rw [ho1, ho2] at hc
        simp only [optCount] at hc
        have hlen : (os1.map OptInstance.state_dict).length = os2.length := by
          simp [hc]
        simp only [OptimizerWrapper.state_dict, hma, if_true, ho1, Except.bind]
        simp only [OptimizerWrapper.load_state_dict, hb2, if_true, ho2]
        rw [if_pos hlen]
        simp only [Except.bind, OptimizerWrapper.state_dict, hb2, if_true]
        rw [loadAll_map_state os2 (os1.map OptInstance.state_dict) hlen]

/-- Witness for C6 at two concrete two-instance multiagent wrappers with
different states. -/
theorem c6_witness :
    ((OptimizerWrapper.mk (.clsType 1) (.kwDict []) true (.pyList 9 []) ["x"]
        (.multi [OptInstance.mk 1 (.plain []) [] 5 0 0,
                 OptInstance.mk 1 (.plain []) [] 7 0 0])).state_dict).bind
        (fun sd => (((OptimizerWrapper.mk (.clsType 1) (.kwDict []) true (.pyList 8 []) ["y"]
            (.multi [OptInstance.mk 1 (.plain []) [] 0 0 0,
                     OptInstance.mk 1 (.plain []) [] 1 0 0]))).load_state_dict sd).bind
          OptimizerWrapper.state_dict)
      = (OptimizerWrapper.mk (.clsType 1) (.kwDict []) true (.pyList 9 []) ["x"]
          (.multi [OptInstance.mk 1 (.plain []) [] 5 0 0,
                   OptInstance.mk 1 (.plain []) [] 7 0 0])).state_dict :=
  c6_roundtrip _ _ rfl rfl rfl rfl

/-- C1 counterexample: the claim states that a wrapper whose topology is
SINGLE (multiagent flag clear, and not both multiple networks and
multiple resolved names) holds exactly one network. Here a construction
with two networks but a single explicit name reaches the SINGLE branch
(wrappers.py lines 87-94), succeeds, and stores both networks while
building one optimizer over only the first network: the resulting
wrapper holds two networks, refuting "exactly one network". -/
theorem c1_counterexample :
    OptimizerWrapper.init
        { optimizer_cls := .clsType 7,
          networks := .pyList 10 [.module 1 [11], .module 2 [22]],
          optimizer_kwargs := .kwDict [],
          network_names := some ["x"],
          multiagent := false }
        [] 99
      = .ok { optimizer_cls := .clsType 7,
              optimizer_kwargs := .kwDict [],
              multiagent := false,
              networks := .pyList 10 [.module 1 [11], .module 2 [22]],
              network_names := ["x"],
              optimizer := .single (mkOptInstance 7 (.plain [11]) []) }
    ∧ pyListElems (PyVal.pyList 10 [.module 1 [11], .module 2 [22]])
        = .ok [.module 1 [11], .module 2 [22]]
    ∧ [PyLeaf.module 1 [11], PyLeaf.module 2 [22]].length ≠ 1 := by
  refine ⟨rfl, rfl, ?_⟩
  decide

/-- C1 (amended): for every construction that reaches the SINGLE branch
(multiagent flag clear and not both multiple stored networks and
multiple resolved names), exactly one OptimizerInstance is built, over
the parameters of the first stored network, from the single optimizer
class and the single keyword dictionary; when exactly one network is
stored this is the lone module. The wrapper itself stores the full
network list, which may hold more than one network. -/
theorem c1_single_topology (c loid freshOid : Nat) (k : Kwargs)
    (ns : List String) (oid0 : Nat) (ps0 : List Nat) (rest : List PyLeaf)
    (container : List (String × PyVal))
    (hne : ns ≠ [])
    (hnotboth : ¬((PyLeaf.module oid0 ps0 :: rest).length > 1 ∧ ns.length > 1)) :
    OptimizerWrapper.init
        { optimizer_cls := .clsType c,
          networks := .pyList loid (.module oid0 ps0 :: rest),
          optimizer_kwargs := .kwDict k,
          network_names := some ns,
          multiagent := false }
        container freshOid
      = .ok { optimizer_cls := .clsType c,
              optimizer_kwargs := .kwDict k,
              multiagent := false,
              networks := .pyList loid (.module oid0 ps0 :: rest),
              network_names := ns,
              optimizer := .single (mkOptInstance c (.plain ps0) k) } := by
  unfold OptimizerWrapper.init
  rw [normalizeNetworks_eq]
  simp only []
  have hr : resolveNames
      { optimizer_cls := .clsType c,
        networks := .pyList loid (.module oid0 ps0 :: rest),
        optimizer_kwargs := .kwDict k,
        network_names := some ns,
        multiagent := false }
      (normValue (.pyList loid (.module oid0 ps0 :: rest)) freshOid) container
      = .ok ns := rfl
  rw [hr]
  simp only []
  rw [if_neg (show ¬(ns.isEmpty = true) by cases ns with
    | nil => exact absurd rfl hne
    | cons a t => simp)]
  have hpe : pyListElems (normValue (.pyList loid (.module oid0 ps0 :: rest)) freshOid)
      = .ok (.module oid0 ps0 :: rest) := rfl
  rw [hpe]
  simp only []
  have hcond : (decide ((PyLeaf.module oid0 ps0 :: rest).length > 1)
      && decide (ns.length > 1)) = false := by
    by_cases h1 : (PyLeaf.module oid0 ps0 :: rest).length > 1
    · by_cases h2 : ns.length > 1
      · exact absurd ⟨h1, h2⟩ hnotboth
      · simp [h2]
    · simp only [List.length_cons, gt_iff_lt, not_lt] at h1
      simp
      omega
  unfold buildOptimizerField
  simp only [Bool.false_eq_true, if_false]
  rw [hcond]
  simp only [Bool.false_eq_true, if_false]
  rfl

/-- Witness for C1 (amended) at a concrete two-network, one-name
construction. -/
theorem c1_witness :
    OptimizerWrapper.init
        { optimizer_cls := .clsType 7,
          networks := .pyList 10 [.module 1 [11], .module 2 [22]],
          optimizer_kwargs := .kwDict [],
          network_names := some ["x"],
          multiagent := false }
        [] 99
      = .ok { optimizer_cls := .clsType 7,
              optimizer_kwargs := .kwDict [],
              multiagent := false,
              networks := .pyList 10 [.module 1 [11], .module 2 [22]],
              network_names := ["x"],
              optimizer := .single (mkOptInstance 7 (.plain [11]) []) } :=
  c1_single_topology 7 10 99 [] ["x"] 1 [11] [.module 2 [22]] []
    (by decide) (by decide)

/-- C2: when no explicit network_names are passed and the resolver finds
no matching field names on the owning container, construction stops at
the assert on line 56 of wrappers.py with the configuration error and no
wrapper is produced; consequently network_names is non-empty in every
successfully constructed wrapper. -/
theorem c2_names_nonempty :
    (∀ (a : InitArgs) (container : List (String × PyVal)) (freshOid : Nat),
        a.network_names = none →
        infer_network_attr_names a.multiagent (normValue a.networks freshOid) container
          = .ok [] →
        OptimizerWrapper.init a container freshOid
          = .error (.assertionError "No networks found in the parent container."))
    ∧ ∀ (a : InitArgs) (container : List (String × PyVal)) (freshOid : Nat)
        (w : OptimizerWrapper),
        OptimizerWrapper.init a container freshOid = .ok w →
        w.network_names ≠ [] := by
  constructor
  · intro a container freshOid hnone hinfer
    unfold OptimizerWrapper.init
    rw [normalizeNetworks_eq]
    simp only []
    have hr : resolveNames a (normValue a.networks freshOid) container = .ok [] := by
      unfold resolveNames
      rw [hnone]
      exact hinfer
    rw [hr]
    rfl
  · intro a container freshOid w h
    obtain ⟨names, elems, f, hr, hni, hpe, hbf, hw⟩ := init_ok_elim h
    rw [hw]
    intro hcontra
    simp only [] at hcontra
    rw [hcontra] at hni
    simp at hni

/-- Witness for C2: a module whose owning container has no matching field
makes construction fail, and a successful construction has the non-empty
name list. -/
theorem c2_witness :
    OptimizerWrapper.init
        { optimizer_cls := .clsType 7, networks := .leaf (.module 1 [11]),
          optimizer_kwargs := .kwDict [], network_names := none, multiagent := false }
        [("y", .leaf (.module 2 [11]))] 5
      = .error (.assertionError "No networks found in the parent container.")
    ∧ ({ optimizer_cls := .clsType 7, optimizer_kwargs := .kwDict [],
         multiagent := false, networks := .pyList 5 [.module 1 [11]],
         network_names := ["x"],
         optimizer := .single (mkOptInstance 7 (.plain [11]) []) } :
        OptimizerWrapper).network_names ≠ [] := by
  constructor
  · exact c2_names_nonempty.1
      { optimizer_cls := .clsType 7, networks := .leaf (.module 1 [11]),
        optimizer_kwargs := .kwDict [], network_names := none, multiagent := false }
      [("y", .leaf (.module 2 [11]))] 5 rfl rfl
  · exact c2_names_nonempty.2
      { optimizer_cls := .clsType 7, networks := .leaf (.module 1 [11]),
        optimizer_kwargs := .kwDict [], network_names := some ["x"], multiagent := false }
      [] 5 _ rfl

/-- C4: with the multiagent flag set and N networks, construction builds
exactly N OptimizerInstances, one per network, regardless of how many
attribute names were resolved (any non-empty name list); the i-th
instance is built from the parameters of networks[i] with the i-th
optimizer class and i-th kwargs when those arguments are lists, else the
single shared class and kwargs. -/
theorem c4_per_network (cls : ClsArg) (kw : KwargsArg) (loid freshOid : Nat)
    (mods : List PyLeaf) (ns : List String) (container : List (String × PyVal))
    (hmods : ∀ v ∈ mods, leafIsModule v = true)
    (hne : ns ≠ [])
    (hcls : ∀ cs, cls = ClsArg.clsList cs → mods.length ≤ cs.length)
    (hkw : ∀ ks, kw = KwargsArg.kwList ks → mods.length ≤ ks.length) :
    OptimizerWrapper.init
        { optimizer_cls := cls, networks := .pyList loid mods,
          optimizer_kwargs := kw, network_names := some ns, multiagent := true }
        container freshOid
      = .ok { optimizer_cls := cls, optimizer_kwargs := kw, multiagent := true,
              networks := .pyList loid mods, network_names := ns,
              optimizer := .multi (multiSpec cls kw mods 0) }
    ∧ (multiSpec cls kw mods 0).length = mods.length
    ∧ ∀ (j : Nat) (v : PyLeaf), mods.get? j = some v →
        (multiSpec cls kw mods 0).get? j
          = some (mkOptInstance (clsAt cls j) (.plain (paramsOf v)) (kwAt kw j)) := by
  refine ⟨?_, multiSpec_length cls kw mods 0, ?_⟩
  · unfold OptimizerWrapper.init
    rw [normalizeNetworks_eq]
    simp only []
    have hr : resolveNames
        { optimizer_cls := cls, networks := .pyList loid mods,
          optimizer_kwargs := kw, network_names := some ns, multiagent := true }
        (normValue (.pyList loid mods) freshOid) container = .ok ns := rfl
    rw [hr]
    simp only []
    rw [if_neg (show ¬(ns.isEmpty = true) by cases ns with
      | nil => exact absurd rfl hne
      | cons a t => simp)]
    have hpe : pyListElems (normValue (.pyList loid mods) freshOid) = .ok mods := rfl
    rw [hpe]
    simp only []
    unfold buildOptimizerField
    simp only [if_true]
    rw [buildMulti_ok cls kw mods 0 hmods
      (fun cs hcs => by have := hcls cs hcs; omega)
      (fun ks hks => by have := hkw ks hks; omega)]
    rfl
  · intro j v hj
    have h := multiSpec_get? cls kw mods 0 j v hj
    simpa using h

/-- Witness for C4 at a concrete two-network multiagent construction with
per-network class and kwargs lists. -/
theorem c4_witness :
    OptimizerWrapper.init
        { optimizer_cls := .clsList [7, 8],
          networks := .pyList 10 [.module 1 [11], .module 2 [22]],
          optimizer_kwargs := .kwList [[("lr", 1)], [("lr", 2)]],
          network_names := some ["x"], multiagent := true }
        [] 99
      = .ok { optimizer_cls := .clsList [7, 8],
              optimizer_kwargs := .kwList [[("lr", 1)], [("lr", 2)]],
              multiagent := true,
              networks := .pyList 10 [.module 1 [11], .module 2 [22]],
              network_names := ["x"],
              optimizer := .multi (multiSpec (.clsList [7, 8])
                (.kwList [[("lr", 1)], [("lr", 2)]])
                [.module 1 [11], .module 2 [22]] 0) }
    ∧ (multiSpec (.clsList [7, 8]) (.kwList [[("lr", 1)], [("lr", 2)]])
        [.module 1 [11], .module 2 [22]] 0).get? 1
      = some (mkOptInstance (clsAt (.clsList [7, 8]) 1)
          (.plain (paramsOf (.module 2 [22]))) (kwAt (.kwList [[("lr", 1)], [("lr", 2)]]) 1)) := by
  constructor
  · exact (c4_per_network (.clsList [7, 8]) (.kwList [[("lr", 1)], [("lr", 2)]])
      10 99 [.module 1 [11], .module 2 [22]] ["x"] []
      (by decide) (by decide)
      (fun cs h => by cases h; decide)
      (fun ks h => by cases h; decide)).1
  · exact (c4_per_network (.clsList [7, 8]) (.kwList [[("lr", 1)], [("lr", 2)]])
      10 99 [.module 1 [11], .module 2 [22]] ["x"] []
      (by decide) (by decide)
      (fun cs h => by cases h; decide)
      (fun ks h => by cases h; decide)).2.2 1 (.module 2 [22]) rfl

/-- C7: for every constructed wrapper, state_dict returns the ordered,
index-aligned list of per-instance serialized states when the stored
optimizer is the PER_NETWORK list, and the serialized state of the single
stored instance (a mapping, not a list) when a single instance is
stored (SINGLE and POOLED topologies). -/
theorem c7_state_dict_shape (a : InitArgs) (container : List (String × PyVal))
    (freshOid : Nat) (w : OptimizerWrapper)
    (h : OptimizerWrapper.init a container freshOid = .ok w) :
    (∀ os, w.optimizer = .multi os →
        w.state_dict = .ok (.list (os.map OptInstance.state_dict)))
    ∧ ∀ o, w.optimizer = .single o →
        w.state_dict = .ok (.dict o.state_dict) := by
  obtain ⟨names, elems, f, hr, hni, hpe, hbf, hw⟩ := init_ok_elim h
  have hshape := buildOptimizerField_shape hbf
  constructor
  · intro os ho
    have hf : f = .multi os := by
      rw [hw] at ho
      exact ho
    have hmult : w.multiagent = true := by
      rw [hw]
      show a.multiagent = true
      rw [← hshape, hf]
      rfl
    unfold OptimizerWrapper.state_dict
    rw [hmult]
    simp only [if_true]
    rw [ho]
  · intro o ho
    have hf : f = .single o := by
      rw [hw] at ho
      exact ho
    have hmult : w.multiagent = false := by
      rw [hw]
      show a.multiagent = false
      rw [← hshape, hf]
      rfl
    unfold OptimizerWrapper.state_dict
    rw [hmult]
    rw [if_neg (show ¬(false = true) by simp)]
    rw [ho]

/-- Witness for C7: a concrete multiagent construction serializes to the
index-aligned list of the two instance states, and a concrete
single-network construction serializes to the one mapping. -/
theorem c7_witness :
    ({ optimizer_cls := .clsType 7, optimizer_kwargs := .kwDict [],
       multiagent := true,
       networks := .pyList 10 [.module 1 [11], .module 2 [22]],
       network_names := ["x"],
       optimizer := .multi [mkOptInstance 7 (.plain [11]) [],
                            mkOptInstance 7 (.plain [22]) []] } :
       OptimizerWrapper).state_dict
      = .ok (.list ([mkOptInstance 7 (.plain [11]) [],
                     mkOptInstance 7 (.plain [22]) []].map OptInstance.state_dict))
    ∧ ({ optimizer_cls := .clsType 7, optimizer_kwargs := .kwDict [],
         multiagent := false,
         networks := .pyList 5 [.module 1 [11]],
         network_names := ["x"],
         optimizer := .single (mkOptInstance 7 (.plain [11]) []) } :
         OptimizerWrapper).state_dict
      = .ok (.dict (mkOptInstance 7 (.plain [11]) []).state_dict) := by
  constructor
  · exact (c7_state_dict_shape
      { optimizer_cls := .clsType 7,
        networks := .pyList 10 [.module 1 [11], .module 2 [22]],
        optimizer_kwargs := .kwDict [], network_names := some ["x"],
        multiagent := true } [] 99 _ rfl).1
      [mkOptInstance 7 (.plain [11]) [], mkOptInstance 7 (.plain [22]) []] rfl
  · exact (c7_state_dict_shape
      { optimizer_cls := .clsType 7, networks := .leaf (.module 1 [11]),
        optimizer_kwargs := .kwDict [], network_names := some ["x"],
        multiagent := false } [] 5 _ rfl).2
      (mkOptInstance 7 (.plain [11]) []) rfl

/-- C9: the type check guarding the networks argument (wrappers.py lines
41-45) asserts a parenthesised (condition, message) pair, i.e. a
non-empty tuple, which is always truthy: every non-module value passes
the check and is stored as-is in self.networks, and no construction ever
raises the advertised error message. -/
theorem c9_vacuous_type_check :
    (∀ (v : PyVal) (freshOid : Nat), isModule v = false →
        normalizeNetworks v freshOid = .ok v)
    ∧ ∀ (a : InitArgs) (container : List (String × PyVal)) (freshOid : Nat),
        OptimizerWrapper.init a container freshOid
          ≠ .error (.assertionError "Expected a single network or a list of networks.") := by
  constructor
  · intro v freshOid hv
    cases v with
    | pyList oid es => rfl
    | leaf x =>
      cases x with
      | module oid ps => simp [isModule, leafIsModule] at hv
      | obj oid => rfl
  · intro a container freshOid hcontra
    unfold OptimizerWrapper.init at hcontra
    rw [normalizeNetworks_eq] at hcontra
    simp only [] at hcontra
    cases hr : resolveNames a (normValue a.networks freshOid) container with
    | error e =>
      rw [hr] at hcontra
      simp only [Except.error.injEq] at hcontra
      obtain ⟨s, hs⟩ := resolveNames_err hr
      rw [hs] at hcontra
      cases hcontra
    | ok names =>
      rw [hr] at hcontra
      simp only [] at hcontra
      cases hni : names.isEmpty with
      | true =>
        rw [hni] at hcontra
        rw [if_pos rfl] at hcontra
        simp only [Except.error.injEq, PyErr.assertionError.injEq] at hcontra
        exact absurd hcontra (by decide)
      | false =>
        rw [hni] at hcontra
        rw [if_neg (show ¬(false = true) by simp)] at hcontra
        cases hpe : pyListElems (normValue a.networks freshOid) with
        | error e =>
          rw [hpe] at hcontra
          simp only [Except.error.injEq] at hcontra
          obtain ⟨s, hs⟩ := pyListElems_err hpe
          rw [hs] at hcontra
          cases hcontra
        | ok elems =>
          rw [hpe] at hcontra
          simp only [] at hcontra
          cases hbf : buildOptimizerField a names elems with
          | error e =>
            rw [hbf] at hcontra
            simp only [Except.error.injEq] at hcontra
            exact absurd hcontra (buildOptimizerField_err hbf)
          | ok f =>
            rw [hbf] at hcontra
            simp only [] at hcontra
            cases hcontra

/-- Witness for C9: a non-module, non-list object passes the check and is
stored as-is, and a concrete failing construction fails with the
missing-names error, never the advertised type error. -/
theorem c9_witness :
    normalizeNetworks (.leaf (.obj 3)) 42 = .ok (.leaf (.obj 3))
    ∧ OptimizerWrapper.init
        { optimizer_cls := .clsType 7, networks := .leaf (.obj 3),
          optimizer_kwargs := .kwDict [], network_names := none,
          multiagent := true }
        [] 42
      ≠ .error (.assertionError "Expected a single network or a list of networks.") := by
  constructor
  · exact c9_vacuous_type_check.1 (.leaf (.obj 3)) 42 rfl
  · exact c9_vacuous_type_check.2
      { optimizer_cls := .clsType 7, networks := .leaf (.obj 3),
        optimizer_kwargs := .kwDict [], network_names := none,
        multiagent := true } [] 42

/-- C10: for every constructed wrapper the stored optimizer field is a
list exactly when the multiagent flag was set, and step, zero_grad and
load_state_dict all preserve the flag, the field shape and the number of
stored instances (no operation after construction reassigns the
optimizer field shape). -/
theorem c10_shape_invariant (a : InitArgs) (container : List (String × PyVal))
    (freshOid : Nat) (w : OptimizerWrapper)
    (h : OptimizerWrapper.init a container freshOid = .ok w) :
    w.multiagent = isListField w.optimizer
    ∧ (∀ w2, w.step = .ok w2 → w2.multiagent = w.multiagent
        ∧ isListField w2.optimizer = isListField w.optimizer
        ∧ optCount w2.optimizer = optCount w.optimizer)
    ∧ (∀ w2, w.zero_grad = .ok w2 → w2.multiagent = w.multiagent
        ∧ isListField w2.optimizer = isListField w.optimizer
        ∧ optCount w2.optimizer = optCount w.optimizer)
    ∧ ∀ sd w2, w.load_state_dict sd = .ok w2 → w2.multiagent = w.multiagent
        ∧ isListField w2.optimizer = isListField w.optimizer
        ∧ optCount w2.optimizer = optCount w.optimizer := by
  refine ⟨?_, fun w2 h2 => step_preserves h2, fun w2 h2 => zero_grad_preserves h2,
    fun sd w2 h2 => load_preserves h2⟩
  obtain ⟨names, elems, f, hr, hni, hpe, hbf, hw⟩ := init_ok_elim h
  rw [hw]
  exact (buildOptimizerField_shape hbf).symm

/-- Witness for C10 at a concrete single-network construction followed by
one optimization step. -/
theorem c10_witness :
    ((OptimizerWrapper.mk (.clsType 7) (.kwDict []) false
        (.pyList 5 [.module 1 [11]]) ["x"]
        (.single (mkOptInstance 7 (.plain [11]) []))).multiagent
      = isListField (OptimizerWrapper.mk (.clsType 7) (.kwDict []) false
          (.pyList 5 [.module 1 [11]]) ["x"]
          (.single (mkOptInstance 7 (.plain [11]) []))).optimizer)
    ∧ ((OptimizerWrapper.mk (.clsType 7) (.kwDict []) false
          (.pyList 5 [.module 1 [11]]) ["x"]
          (.single (OptInstance.mk 7 (.plain [11]) [] 0 1 0))).multiagent
        = (OptimizerWrapper.mk (.clsType 7) (.kwDict []) false
            (.pyList 5 [.module 1 [11]]) ["x"]
            (.single (mkOptInstance 7 (.plain [11]) []))).multiagent
      ∧ isListField (OptimizerWrapper.mk (.clsType 7) (.kwDict []) false
            (.pyList 5 [.module 1 [11]]) ["x"]
            (.single (OptInstance.mk 7 (.plain [11]) [] 0 1 0))).optimizer
        = isListField (OptimizerWrapper.mk (.clsType 7) (.kwDict []) false
            (.pyList 5 [.module 1 [11]]) ["x"]
            (.single (mkOptInstance 7 (.plain [11]) []))).optimizer
      ∧ optCount (OptimizerWrapper.mk (.clsType 7) (.kwDict []) false
            (.pyList 5 [.module 1 [11]]) ["x"]
            (.single (OptInstance.mk 7 (.plain [11]) [] 0 1 0))).optimizer
        = optCount (OptimizerWrapper.mk (.clsType 7) (.kwDict []) false
            (.pyList 5 [.module 1 [11]]) ["x"]
            (.single (mkOptInstance 7 (.plain [11]) []))).optimizer) := by
  constructor
  · exact (c10_shape_invariant
      { optimizer_cls := .clsType 7, networks := .leaf (.module 1 [11]),
        optimizer_kwargs := .kwDict [], network_names := some ["x"],
        multiagent := false } [] 5 _ rfl).1
  · exact (c10_shape_invariant
      { optimizer_cls := .clsType 7, networks := .leaf (.module 1 [11]),
        optimizer_kwargs := .kwDict [], network_names := some ["x"],
        multiagent := false } [] 5 _ rfl).2.1
      _ rfl
